import Mathlib

/-!
Shallow embedding of the request-authorization and booking-access-control
pipeline of the `express_api_ts-natours` backend.

The embedded source files:
* `src/controllers/booking.controller.ts` — `getBookingHandler`,
  `getMyBookingsHandler`;
* the role-restriction middleware `restrictTo`;
* the user service — `createUser`, `checkPassword`.

Express handlers are modelled as pure functions from the data they read
(route parameters, the resolved `res.locals.user`, and the result of the
awaited service call) to an explicit outcome: either `next(err)` was
called with a typed error object, or `res.status(s).json(body)` produced a
response.  Mongo `ObjectId` values are modelled as a canonical hex string
together with a wrapper tag, so that two distinct runtime representations
of the same identifier can be told apart from the identifier itself;
`ObjectId.toString` returns the canonical string, as in the driver.
-/

namespace Natours

/-- The error object `new AppError({statusCode, message})` handed to `next`. -/
structure AppError where
  statusCode : Nat
  message : String
  deriving Repr, DecidableEq

/-- A Mongo ObjectId: `hex` is its canonical string form, `wrapper`
distinguishes different runtime wrapper objects denoting the same id. -/
structure ObjectId where
  hex : String
  wrapper : Nat
  deriving Repr, DecidableEq

/-- `ObjectId.prototype.toString()` — the canonical hex string. -/
def ObjectId.toString (o : ObjectId) : String := o.hex

/-- The populated `user` subdocument stored on a booking. -/
structure BookingUser where
  _id : ObjectId
  deriving Repr, DecidableEq

/-- A booking document; the handlers read only `_id` and `user._id`. -/
structure Booking where
  _id : String
  user : BookingUser
  deriving Repr, DecidableEq

/-- `res.locals.user` as read by the handlers: `_id` is the string id put
there by `requireUser`, `role` the user's role. -/
structure CurrentUser where
  _id : String
  role : String
  deriving Repr, DecidableEq

/-- Outcome of running a handler: `calledNext e` means `next(e)` was
invoked and no response body was written; `responded s b` means
`res.status(s).json(b)` was produced. -/
inductive HandlerResult (α : Type) where
  | calledNext (e : AppError)
  | responded (status : Nat) (body : α)
  deriving Repr, DecidableEq

/-- Body of the single-booking success response
`{status: 'success', data: {booking}}`. -/
structure BookingBody where
  status : String
  booking : Booking
  deriving Repr, DecidableEq

/-- `currentUserRole === 'admin'` (step 2 of `getBookingHandler`). -/
def userIsAdmin (u : CurrentUser) : Bool :=
  u.role == "admin"

/-- `booking.user._id.toString() === currentUserId` (step 3 of
`getBookingHandler`). -/
def userIsBooker (b : Booking) (u : CurrentUser) : Bool :=
  b.user._id.toString == u._id

/-- The 403 message of `getBookingHandler`. -/
def bookingForbiddenMsg : String :=
  "You can only check a booking that you booked yourself, or you need to be Admin"

/-- `getBookingHandler` from `booking.controller.ts`, as a function of the
awaited `getBooking({_id: bookingId})` result and of `res.locals.user`. -/
def getBookingHandler (booking : Option Booking) (u : CurrentUser) :
    HandlerResult BookingBody :=
  match booking with
  | none => .calledNext ⟨404, "Booking not found"⟩
  | some b =>
    let uIsAdmin := userIsAdmin u
    let uIsBooker := userIsBooker b u
    if !uIsAdmin && !uIsBooker then
      .calledNext ⟨403, bookingForbiddenMsg⟩
    else
      .responded 200 ⟨"success", b⟩

/-- JavaScript `Array.prototype.join(', ')`. -/
def joinComma : List String → String
  | [] => ""
  | [r] => r
  | r :: rs => r ++ ", " ++ joinComma rs

/-- Outcome of running a middleware: either `next(e)` with an error, or a
plain `next()` passing control on. -/
inductive GuardResult where
  | nextError (e : AppError)
  | nextOk
  deriving Repr, DecidableEq

/-- The message of the `restrictTo` 403 error. -/
def restrictToMsg (roles : List String) : String :=
  "Unauthorized - You don\x27t have permissions. Access restricted to "
    ++ joinComma roles ++ "."

/-- The `restrictTo(...roles)` middleware, as a function of the configured
roles and of `res.locals.user`. -/
def restrictTo (roles : List String) (u : CurrentUser) : GuardResult :=
  if !(roles.contains u.role) then
    .nextError ⟨403, restrictToMsg roles⟩
  else
    .nextOk

/-! ### The self-scoped listing (`getMyBookingsHandler`) -/

/-- An incoming Express request: route params, query string and body, each
a key/value map. `getMyBookingsHandler` receives one but reads none of it. -/
structure Request where
  params : List (String × String)
  query : List (String × String)
  body : List (String × String)
  deriving Repr, DecidableEq

/-- Modelled from the spec: the booking service's `getMyBookings(userId)`
(file `src/services/booking.service.ts`, absent from the sources) "takes
only the current user's id, implicitly filters to bookings owned by that
user". Modelled over an explicit database of bookings. -/
def getMyBookings (db : List Booking) (userId : String) : List Booking :=
  db.filter (fun b => b.user._id.toString == userId)

/-- Body of the listing success response
`{status: 'success', dataCount, data: {bookings}}`. -/
structure BookingsBody where
  status : String
  dataCount : Nat
  bookings : List Booking
  deriving Repr, DecidableEq

/-- `getMyBookingsHandler` from `booking.controller.ts`: reads
`res.locals.user._id`, awaits `getMyBookings(userId)` and responds; the
request object is a parameter it never consults. -/
def getMyBookingsHandler (db : List Booking) (_req : Request)
    (u : CurrentUser) : HandlerResult BookingsBody :=
  let userId := u._id
  let bookings := getMyBookings db userId
  .responded 200 ⟨"success", bookings.length, bookings⟩

/-! ### State-threaded variants

To make statelessness provable rather than definitional slogan, the two
decision components are also translated in state-passing style: the state
is exactly the data a stateful implementation could mutate (the resolved
user and the fetched booking), and every branch of the source is
translated together with the state it leaves behind.  The source contains
no assignment to either, so each branch returns the incoming state. -/

/-- The request-scoped data `getBookingHandler` could mutate. -/
structure EvalState where
  user : CurrentUser
  booking : Option Booking
  deriving Repr, DecidableEq

/-- `getBookingHandler` in state-passing style. -/
def getBookingHandlerSt (s : EvalState) :
    HandlerResult BookingBody × EvalState :=
  match s.booking with
  | none => (.calledNext ⟨404, "Booking not found"⟩, s)
  | some b =>
    let uIsAdmin := userIsAdmin s.user
    let uIsBooker := userIsBooker b s.user
    if !uIsAdmin && !uIsBooker then
      (.calledNext ⟨403, bookingForbiddenMsg⟩, s)
    else
      (.responded 200 ⟨"success", b⟩, s)

/-- `restrictTo` in state-passing style over the resolved user. -/
def restrictToSt (roles : List String) (u : CurrentUser) :
    GuardResult × CurrentUser :=
  if !(roles.contains u.role) then
    (.nextError ⟨403, restrictToMsg roles⟩, u)
  else
    (.nextOk, u)

/-! ### The user service (`createUser`, `checkPassword`) -/

/-- A value thrown by JavaScript code: an `Error` instance carrying a
message, an `AppError` (which extends `Error`), or any non-`Error` value. -/
inductive Thrown where
  | plainError (message : String)
  | appError (e : AppError)
  | nonError (tag : Nat)
  deriving Repr, DecidableEq

/-- `err instanceof Error` — true for plain errors and for `AppError`. -/
def Thrown.isError : Thrown → Bool
  | .plainError _ => true
  | .appError _ => true
  | .nonError _ => false

/-- `err.message` of a thrown `Error` (unused tag for non-errors). -/
def Thrown.errMessage : Thrown → String
  | .plainError m => m
  | .appError e => e.message
  | .nonError _ => ""

/-- A freshly created user document; `fields` is its `toJSON()` output,
a key/value map that includes the `password` key. -/
structure NewUserDoc where
  fields : List (String × String)
  deriving Repr, DecidableEq

/-- lodash `omit(obj, key)`: the object without that key. -/
def omitKey (l : List (String × String)) (k : String) : List (String × String) :=
  l.filter (fun kv => !(kv.1 == k))

/-- `createUser` from the user service, as a function of the outcome of
the awaited `User.create(inputData)` call: on success it strips the
password from the JSON; on a thrown `Error` it throws
`new AppError({statusCode: 409, message: err.message})`; any other thrown
value is re-thrown as is. -/
def createUser (createResult : Except Thrown NewUserDoc) :
    Except Thrown (List (String × String)) :=
  match createResult with
  | .ok newUser => .ok (omitKey newUser.fields "password")
  | .error err =>
    if err.isError then
      .error (.appError ⟨409, err.errMessage⟩)
    else
      .error err

/-- A field of a mongoose document object: a string value or the
`comparePassword` method. -/
inductive ObjField where
  | str (s : String)
  | fn (f : String → Bool)

/-- A full user document as the service sees it. -/
structure UserDocument where
  _id : String
  email : String
  password : String
  comparePassword : String → Bool

/-- `User.findOne({email})` over an explicit database. -/
def findOne (db : List UserDocument) (email : String) : Option UserDocument :=
  db.find? (fun u => u.email == email)

/-- The document's own fields as `toObject` materialises them, before the
transform runs: includes `password` and `comparePassword`. -/
def toObjectRaw (u : UserDocument) : List (String × ObjField) :=
  [("_id", .str u._id), ("email", .str u.email),
   ("password", .str u.password), ("comparePassword", .fn u.comparePassword)]

/-- JavaScript `delete ret[k]` on a key/value object. -/
def deleteKey (l : List (String × ObjField)) (k : String) :
    List (String × ObjField) :=
  l.filter (fun kv => !(kv.1 == k))

/-- The `toObject({transform})` call of `checkPassword`: delete
`ret.password`, then `ret.comparePassword`. -/
def toObjectTransformed (u : UserDocument) : List (String × ObjField) :=
  deleteKey (deleteKey (toObjectRaw u) "password") "comparePassword"

/-- `checkPassword({email, password})` from the user service: `null` when
no user matches the email, `null` when `comparePassword` rejects, else the
transformed object. -/
def checkPassword (db : List UserDocument) (email password : String) :
    Option (List (String × ObjField)) :=
  match findOne db email with
  | none => none
  | some user =>
    let isValid := user.comparePassword password
    if !isValid then none
    else some (toObjectTransformed user)

/-! ## Theorems -/

/-- Every element of a role list occurs verbatim inside its
comma-separated join. -/
theorem joinComma_contains : ∀ (roles : List String) (r : String),
    r ∈ roles → ∃ s t : List Char, (joinComma roles).data = s ++ r.data ++ t
  | [], r, h => absurd h (List.not_mem_nil r)
  | [a], r, h => by
    have hr : r = a := by simpa using h
    subst hr
    exact ⟨[], [], by simp [joinComma]⟩
  | a :: b :: rest, r, h => by
    rcases List.mem_cons.mp h with hr | h'
    · subst hr
      refine ⟨[], (", " : String).data ++ (joinComma (b :: rest)).data, ?_⟩
      simp [joinComma, String.data_append]
    · obtain ⟨s, t, hst⟩ := joinComma_contains (b :: rest) r h'
      refine ⟨(a ++ ", ").data ++ s, t, ?_⟩
      simp [joinComma, String.data_append, hst]

/-- Every allowed role occurs verbatim inside the `restrictTo` denial
message. -/
theorem restrictToMsg_contains (roles : List String) (r : String)
    (h : r ∈ roles) :
    ∃ s t : List Char, (restrictToMsg roles).data = s ++ r.data ++ t := by
  obtain ⟨s, t, hst⟩ := joinComma_contains roles r h
  refine ⟨("Unauthorized - You don\x27t have permissions. Access restricted to " : String).data ++ s,
    t ++ ("." : String).data, ?_⟩
  simp [restrictToMsg, String.data_append, hst]

/-- C1: for every existing booking and resolved current user,
`getBookingHandler` responds with the booking iff the user's role is
`admin` or the user's id equals the booking owner's (normalized) id;
otherwise it denies with a 403 error carrying the owner-or-admin
message. -/
theorem getBooking_admin_or_owner (b : Booking) (u : CurrentUser) :
    (getBookingHandler (some b) u = .responded 200 ⟨"success", b⟩ ↔
      (u.role = "admin" ∨ b.user._id.toString = u._id))
    ∧ (¬(u.role = "admin" ∨ b.user._id.toString = u._id) →
        getBookingHandler (some b) u = .calledNext ⟨403, bookingForbiddenMsg⟩) := by
  by_cases hA : u.role = "admin" <;> by_cases hO : b.user._id.toString = u._id <;>
    simp [getBookingHandler, userIsAdmin, userIsBooker, hA, hO]

/-- Witness for C1: a non-admin owner is allowed, a non-admin non-owner
gets the 403. -/
theorem getBooking_admin_or_owner_witness :
    getBookingHandler (some ⟨"b1", ⟨⟨"u1", 0⟩⟩⟩) ⟨"u1", "user"⟩ =
      .responded 200 ⟨"success", ⟨"b1", ⟨⟨"u1", 0⟩⟩⟩⟩
    ∧ getBookingHandler (some ⟨"b1", ⟨⟨"u1", 0⟩⟩⟩) ⟨"u2", "user"⟩ =
      .calledNext ⟨403, bookingForbiddenMsg⟩ :=
  ⟨(getBooking_admin_or_owner ⟨"b1", ⟨⟨"u1", 0⟩⟩⟩ ⟨"u1", "user"⟩).1.mpr
      (Or.inr rfl),
   (getBooking_admin_or_owner ⟨"b1", ⟨⟨"u1", 0⟩⟩⟩ ⟨"u2", "user"⟩).2
      (by decide)⟩

/-- C2: for a missing booking, `getBookingHandler` denies with the 404
error whatever the current user is, and its result does not depend on the
user at all — the existence check precedes any role or ownership test. -/
theorem getBooking_missing_404 (u v : CurrentUser) :
    getBookingHandler none u = .calledNext ⟨404, "Booking not found"⟩
    ∧ getBookingHandler none u = getBookingHandler none v :=
  ⟨rfl, rfl⟩

/-- C3: for a non-empty configured role list, `restrictTo` passes control
on iff the user's role is in the list; otherwise it forwards a 403 error
whose message contains every allowed role verbatim. -/
theorem restrictTo_allows_iff (roles : List String) (u : CurrentUser)
    (_hne : roles ≠ []) :
    (restrictTo roles u = .nextOk ↔ u.role ∈ roles)
    ∧ (u.role ∉ roles →
        restrictTo roles u = .nextError ⟨403, restrictToMsg roles⟩
        ∧ ∀ r ∈ roles,
            ∃ s t : List Char, (restrictToMsg roles).data = s ++ r.data ++ t) := by
  constructor
  · by_cases hm : u.role ∈ roles <;> simp [restrictTo, hm]
  · intro hm
    refine ⟨by simp [restrictTo, hm], fun r hr => restrictToMsg_contains roles r hr⟩

/-- Witness for C3: with roles `["admin", "guide"]`, a guide passes and a
plain user is denied with the 403 error. -/
theorem restrictTo_allows_iff_witness :
    restrictTo ["admin", "guide"] ⟨"u1", "guide"⟩ = .nextOk
    ∧ restrictTo ["admin", "guide"] ⟨"u1", "user"⟩ =
        .nextError ⟨403, restrictToMsg ["admin", "guide"]⟩ :=
  ⟨(restrictTo_allows_iff ["admin", "guide"] ⟨"u1", "guide"⟩ (by decide)).1.mpr
      (by decide),
   ((restrictTo_allows_iff ["admin", "guide"] ⟨"u1", "user"⟩ (by decide)).2
      (by decide)).1⟩

/-- C8: configured with an empty role list, `restrictTo` denies every
user with the 403 error (the empty-join message). -/
theorem restrictTo_empty_denies (u : CurrentUser) :
    restrictTo [] u = .nextError ⟨403, restrictToMsg []⟩ :=
  rfl

/-- C4: the self-scoped listing ignores the request object entirely — its
output is the same for any two requests — and every booking it returns is
owned by the resolved current user, so no externally supplied id can leak
another user's booking. -/
theorem myBookings_scoped (db : List Booking) (req req' : Request)
    (u : CurrentUser) :
    getMyBookingsHandler db req u = getMyBookingsHandler db req' u
    ∧ getMyBookingsHandler db req u =
        .responded 200
          ⟨"success", (getMyBookings db u._id).length, getMyBookings db u._id⟩
    ∧ ∀ b ∈ getMyBookings db u._id, b.user._id.toString = u._id := by
  refine ⟨rfl, rfl, fun b hb => ?_⟩
  simpa [getMyBookings] using (List.mem_filter.mp hb).2

/-- Witness for C4: on a two-user database, user `A` gets exactly their
own booking, through any request object. -/
theorem myBookings_scoped_witness :
    getMyBookingsHandler
        [⟨"b1", ⟨⟨"A", 0⟩⟩⟩, ⟨"b2", ⟨⟨"B", 0⟩⟩⟩]
        ⟨[("userId", "B")], [], []⟩ ⟨"A", "user"⟩ =
      getMyBookingsHandler
        [⟨"b1", ⟨⟨"A", 0⟩⟩⟩, ⟨"b2", ⟨⟨"B", 0⟩⟩⟩] ⟨[], [], []⟩ ⟨"A", "user"⟩
    ∧ (⟨"b1", ⟨⟨"A", 0⟩⟩⟩ : Booking).user._id.toString = "A" :=
  ⟨(myBookings_scoped [⟨"b1", ⟨⟨"A", 0⟩⟩⟩, ⟨"b2", ⟨⟨"B", 0⟩⟩⟩]
      ⟨[("userId", "B")], [], []⟩ ⟨[], [], []⟩ ⟨"A", "user"⟩).1,
   (myBookings_scoped [⟨"b1", ⟨⟨"A", 0⟩⟩⟩, ⟨"b2", ⟨⟨"B", 0⟩⟩⟩]
      ⟨[("userId", "B")], [], []⟩ ⟨[], [], []⟩ ⟨"A", "user"⟩).2.2
      ⟨"b1", ⟨⟨"A", 0⟩⟩⟩ (by decide)⟩

/-- C5: the ownership comparison holds iff the canonical string forms of
the two identifiers agree, and it is invariant under changing the runtime
wrapper of the booking owner's ObjectId — it is equality of normalized
representations, not reference or type-identical equality. -/
theorem userIsBooker_normalized (b : Booking) (u : CurrentUser) :
    (userIsBooker b u = true ↔ b.user._id.hex = u._id)
    ∧ ∀ w : Nat,
        userIsBooker ⟨b._id, ⟨⟨b.user._id.hex, w⟩⟩⟩ u = userIsBooker b u := by
  constructor
  · simp [userIsBooker, ObjectId.toString]
  · intro w
    simp [userIsBooker, ObjectId.toString]

/-- Witness for C5: an owner id arriving under a different wrapper than
the session string still compares equal. -/
theorem userIsBooker_normalized_witness :
    userIsBooker ⟨"b1", ⟨⟨"deadbeef", 7⟩⟩⟩ ⟨"deadbeef", "user"⟩ = true :=
  (userIsBooker_normalized ⟨"b1", ⟨⟨"deadbeef", 7⟩⟩⟩ ⟨"deadbeef", "user"⟩).1.mpr
    rfl

/-- C6: both decision components are stateless and deterministic: the
state-threaded translations leave the user and the fetched booking
unchanged, and re-evaluating on the post-state yields the same decision. -/
theorem guards_stateless (roles : List String) (s : EvalState) :
    (getBookingHandlerSt s).2 = s
    ∧ (getBookingHandlerSt ((getBookingHandlerSt s).2)).1 =
        (getBookingHandlerSt s).1
    ∧ (restrictToSt roles s.user).2 = s.user
    ∧ (restrictToSt roles ((restrictToSt roles s.user).2)).1 =
        (restrictToSt roles s.user).1 := by
  have h1 : (getBookingHandlerSt s).2 = s := by
    obtain ⟨u, ob⟩ := s
    cases ob with
    | none => rfl
    | some b =>
      by_cases hc : (!userIsAdmin u && !userIsBooker b u) = true <;>
        simp [getBookingHandlerSt, hc]
  have h2 : (restrictToSt roles s.user).2 = s.user := by
    unfold restrictToSt
    split <;> rfl
  exact ⟨h1, by rw [h1], h2, by rw [h2]⟩

/-- C7: on every denial the single-booking handler hands a typed error
with status 404 or 403 to `next` and writes no body; otherwise it
responds 200 with the `{status: 'success', data: {booking}}` payload. -/
theorem getBooking_output_shape (ob : Option Booking) (u : CurrentUser) :
    (∃ e : AppError, getBookingHandler ob u = .calledNext e
        ∧ (e.statusCode = 404 ∨ e.statusCode = 403))
    ∨ (∃ b : Booking, ob = some b
        ∧ getBookingHandler ob u = .responded 200 ⟨"success", b⟩) := by
  cases ob with
  | none => exact Or.inl ⟨⟨404, "Booking not found"⟩, rfl, Or.inl rfl⟩
  | some b =>
    by_cases h : (!userIsAdmin u && !userIsBooker b u) = true
    · exact Or.inl ⟨⟨403, bookingForbiddenMsg⟩, by simp [getBookingHandler, h],
        Or.inr rfl⟩
    · exact Or.inr ⟨b, rfl, by simp [getBookingHandler, h]⟩

/-- C9: `createUser` turns every thrown `Error` into an `AppError` with
status 409 and the original message, and re-throws any non-`Error` value
unchanged. -/
theorem createUser_error_conversion (res : Except Thrown NewUserDoc) :
    (∀ t : Thrown, res = .error t → t.isError = true →
        createUser res = .error (.appError ⟨409, t.errMessage⟩))
    ∧ (∀ tag : Nat, res = .error (.nonError tag) →
        createUser res = .error (.nonError tag)) := by
  constructor
  · rintro t rfl ht
    simp [createUser, ht]
  · rintro tag rfl
    simp [createUser, Thrown.isError]

/-- Witness for C9: a duplicate-key `Error` becomes the 409 `AppError`
with the same message; a thrown number passes through unchanged. -/
theorem createUser_error_conversion_witness :
    createUser (.error (.plainError "dup key")) =
      .error (.appError ⟨409, "dup key"⟩)
    ∧ createUser (.error (.nonError 5)) = .error (.nonError 5) :=
  ⟨(createUser_error_conversion (.error (.plainError "dup key"))).1
      (.plainError "dup key") rfl rfl,
   (createUser_error_conversion (.error (.nonError 5))).2 5 rfl⟩

/-- C10: `checkPassword` answers `none` exactly when the email matches no
user or the password comparison fails — the two causes produce the very
same value — and any returned object carries neither a `password` nor a
`comparePassword` key. -/
theorem checkPassword_failure_and_shape (db : List UserDocument)
    (email pw : String) :
    (checkPassword db email pw = none ↔
      (findOne db email = none
        ∨ ∃ u, findOne db email = some u ∧ u.comparePassword pw = false))
    ∧ (∀ obj, checkPassword db email pw = some obj →
        ∀ kv ∈ obj, kv.1 ≠ "password" ∧ kv.1 ≠ "comparePassword") := by
  constructor
  · cases hf : findOne db email with
    | none => simp [checkPassword, hf]
    | some u =>
      by_cases hc : u.comparePassword pw = true <;>
        simp [checkPassword, hf, hc]
  · intro obj hobj kv hkv
    cases hf : findOne db email with
    | none => simp [checkPassword, hf] at hobj
    | some u =>
      by_cases hc : u.comparePassword pw = true
      · rw [checkPassword, hf] at hobj
        simp [hc] at hobj
        subst hobj
        simp [toObjectTransformed, deleteKey, List.mem_filter] at hkv
        exact ⟨hkv.2.2, hkv.2.1⟩
      · simp [checkPassword, hf, hc] at hobj

/-- Witness for C10: with one stored user, a wrong password and an
unknown email both give `none`; on success the `_id` entry (like every
entry) is neither `password` nor `comparePassword`. -/
theorem checkPassword_failure_and_shape_witness :
    checkPassword [⟨"id1", "a@b", "hash", fun p => p == "pw"⟩] "a@b" "wrong"
      = none
    ∧ checkPassword [⟨"id1", "a@b", "hash", fun p => p == "pw"⟩] "x@y" "pw"
      = none
    ∧ ("_id" ≠ "password" ∧ "_id" ≠ "comparePassword") :=
  ⟨(checkPassword_failure_and_shape
      [⟨"id1", "a@b", "hash", fun p => p == "pw"⟩] "a@b" "wrong").1.mpr
      (Or.inr ⟨⟨"id1", "a@b", "hash", fun p => p == "pw"⟩, rfl, rfl⟩),
   (checkPassword_failure_and_shape
      [⟨"id1", "a@b", "hash", fun p => p == "pw"⟩] "x@y" "pw").1.mpr
      (Or.inl rfl),
   (checkPassword_failure_and_shape
      [⟨"id1", "a@b", "hash", fun p => p == "pw"⟩] "a@b" "pw").2
      (toObjectTransformed ⟨"id1", "a@b", "hash", fun p => p == "pw"⟩) rfl
      ("_id", .str "id1") (List.mem_cons_self _ _)⟩

end Natours
